import Mathlib

/-!
Verification of the Monte Carlo forecasting engine of the
analytics-simulation-framework repository.

Shallow embedding of the core of `modules/simulation.py` and the curve
lookup logic of `config.py`.  Python floats are modelled as exact
rationals (`ℚ`); the transcendental primitives `np.log` / `np.exp` /
`math.exp` used by the log-linear interpolation branch are modelled as
explicit function parameters `rlog rexp : ℚ → ℚ` threaded through the
lookup functions (no theorem below depends on their values, so every
theorem holds in particular for the real logarithm and exponential).
Python code that can raise (`max()` of an empty sequence, division by
zero) is modelled with `Option`: `none` means the Python code raises.
-/

/-- Division as Python performs it: raises (`none`) on a zero denominator. -/
def pydiv (a b : ℚ) : Option ℚ :=
  if b = 0 then none else some (a / b)

/-- Python `max(list)`: raises (`none`) on an empty list. -/
def listMax? : List ℤ → Option ℤ
  | [] => none
  | x :: xs => some (xs.foldl max x)

/-- Python `min(list)`: raises (`none`) on an empty list. -/
def listMin? : List ℤ → Option ℤ
  | [] => none
  | x :: xs => some (xs.foldl min x)

/-- Python `key in dict` / `dict[key]` on the anchor association list. -/
def lookupKey (k : ℤ) : List (ℤ × ℚ) → Option ℚ
  | [] => none
  | (a, v) :: rest => if k = a then some v else lookupKey k rest

/-- Embeds `config.py` `RetentionMetrics`: the ten calendar-retention anchors. -/
structure RetentionMetrics where
  d0 : ℚ
  d1 : ℚ
  d3 : ℚ
  d7 : ℚ
  d14 : ℚ
  d30 : ℚ
  d60 : ℚ
  d90 : ℚ
  d180 : ℚ
  d365 : ℚ

/-- Embeds `RetentionMetrics.get_curve`: the anchor dictionary, as an association
list keyed by day, in the order the source builds it. -/
def RetentionMetrics.get_curve (r : RetentionMetrics) : List (ℤ × ℚ) :=
  [(0, r.d0), (1, r.d1), (3, r.d3), (7, r.d7), (14, r.d14),
   (30, r.d30), (60, r.d60), (90, r.d90), (180, r.d180), (365, r.d365)]

/-- Embeds `RetentionMetrics.get_retention_at_day`: exact anchor, flat hold above
the last anchor, otherwise log-linear interpolation between the nearest
anchors.  `rlog`/`rexp` stand for `np.log`/`np.exp`. -/
def RetentionMetrics.get_retention_at_day (rlog rexp : ℚ → ℚ)
    (r : RetentionMetrics) (day : ℤ) : Option ℚ :=
  let curve := r.get_curve
  let known_days := curve.map Prod.fst
  match lookupKey day curve with
  | some v => some v
  | none => do
    let maxDay ← listMax? known_days
    if day > maxDay then
      lookupKey maxDay curve
    else do
      let prev_day ← listMax? (known_days.filter (fun d => d < day))
      let next_day ← listMin? (known_days.filter (fun d => d > day))
      let prev_rate ← lookupKey prev_day curve
      let next_rate ← lookupKey next_day curve
      let progress ← pydiv ((day : ℚ) - (prev_day : ℚ)) ((next_day : ℚ) - (prev_day : ℚ))
      let log_prev := rlog (max prev_rate (1/1000))
      let log_next := rlog (max next_rate (1/1000))
      some (rexp (log_prev + progress * (log_next - log_prev)))

/-- Embeds `config.py` `SubscriptionRetentionCurve`: the eleven cycle anchors. -/
structure SubscriptionRetentionCurve where
  cycle_0 : ℚ
  cycle_1 : ℚ
  cycle_2 : ℚ
  cycle_3 : ℚ
  cycle_4 : ℚ
  cycle_5 : ℚ
  cycle_6 : ℚ
  cycle_8 : ℚ
  cycle_12 : ℚ
  cycle_24 : ℚ
  cycle_52 : ℚ

/-- Embeds `SubscriptionRetentionCurve.get_curve`: the anchor dictionary as an
association list keyed by billing cycle. -/
def SubscriptionRetentionCurve.get_curve (c : SubscriptionRetentionCurve) :
    List (ℤ × ℚ) :=
  [(0, c.cycle_0), (1, c.cycle_1), (2, c.cycle_2), (3, c.cycle_3),
   (4, c.cycle_4), (5, c.cycle_5), (6, c.cycle_6), (8, c.cycle_8),
   (12, c.cycle_12), (24, c.cycle_24), (52, c.cycle_52)]

/-- Embeds `SubscriptionRetentionCurve.get_retention_at_cycle`: exact anchor,
1.0 below cycle 0, geometric extrapolation above the last anchor using
the decay ratio of the last two anchors (0.9 if fewer than two exist),
otherwise log-linear interpolation. -/
def SubscriptionRetentionCurve.get_retention_at_cycle (rlog rexp : ℚ → ℚ)
    (c : SubscriptionRetentionCurve) (cycle : ℤ) : Option ℚ :=
  let curve := c.get_curve
  let known_cycles := curve.map Prod.fst
  match lookupKey cycle curve with
  | some v => some v
  | none =>
    if cycle ≤ 0 then some 1
    else do
      let last_cycle ← listMax? known_cycles
      if cycle > last_cycle then do
        let last_val ← lookupKey last_cycle curve
        let decay_rate ←
          if known_cycles.length ≥ 2 then do
            let second_last ← known_cycles.get? (known_cycles.length - 2)
            let second_val ← lookupKey second_last curve
            pydiv last_val second_val
          else
            some (9/10)
        some (last_val * decay_rate ^ (cycle - last_cycle).toNat)
      else do
        let prev_cycle ← listMax? (known_cycles.filter (fun d => d < cycle))
        let next_cycle ← listMin? (known_cycles.filter (fun d => d > cycle))
        let prev_rate ← lookupKey prev_cycle curve
        let next_rate ← lookupKey next_cycle curve
        let progress ← pydiv ((cycle : ℚ) - (prev_cycle : ℚ)) ((next_cycle : ℚ) - (prev_cycle : ℚ))
        let log_prev := rlog (max prev_rate (1/1000))
        let log_next := rlog (max next_rate (1/1000))
        some (rexp (log_prev + progress * (log_next - log_prev)))

/-- Embeds `config.py` `SubscriptionPlan` (the fields the engine reads). -/
structure SubscriptionPlan where
  name : String
  price : ℚ
  duration_days : ℤ
  pay_rate : ℚ
  has_trial : Bool
  trial_days : ℤ
  trial_to_paid_rate : ℚ
  sub_retention : SubscriptionRetentionCurve

/-- Embeds `SubscriptionPlan.get_renewal_rate`: lifetime plans never renew (0);
cycle ≤ 0 renews at 1.0; otherwise the ratio of consecutive cycle
retentions, 0 when the previous retention is non-positive. -/
def SubscriptionPlan.get_renewal_rate (rlog rexp : ℚ → ℚ)
    (p : SubscriptionPlan) (cycle : ℤ) : Option ℚ :=
  if p.duration_days ≥ 36500 then some 0
  else if cycle ≤ 0 then some 1
  else do
    let retention_current ← p.sub_retention.get_retention_at_cycle rlog rexp cycle
    let retention_prev ← p.sub_retention.get_retention_at_cycle rlog rexp (cycle - 1)
    if retention_prev ≤ 0 then some 0
    else some (retention_current / retention_prev)

/-- Embeds `simulation.py` `SimulationParams`: one fully sampled parameter set. -/
structure SimulationParams where
  cpm : ℚ
  ctr : ℚ
  cvr : ℚ
  organic_ratio : ℚ
  ecpm_d0 : ℚ
  impressions_d0 : ℚ
  ecpm_saturation_ratio : ℚ
  impressions_saturation_ratio : ℚ
  decay_half_life : ℤ
  retention_mult : ℚ
  pay_rate_mult : ℚ
  renewal_mult : ℚ
deriving DecidableEq

/-- A Python float as produced by the CPI formulas: a finite value,
`float('inf')`, `-float('inf')`, or `nan`. -/
inductive PyF where
  | fin (q : ℚ)
  | inf
  | ninf
  | nan
deriving DecidableEq

/-- Multiplication of a Python float by a finite float, as Python does it
(`inf * 0 = nan`, `inf * c` keeps the sign of `c`). -/
def PyF.mulFin : PyF → ℚ → PyF
  | .fin x, c => .fin (x * c)
  | .inf, c => if 0 < c then .inf else if c < 0 then .ninf else .nan
  | .ninf, c => if 0 < c then .ninf else if c < 0 then .inf else .nan
  | .nan, _ => .nan

/-- Python `x > 0` on our float model (`inf > 0` is true, `nan > 0` false). -/
def PyF.gtZeroB : PyF → Bool
  | .fin q => decide (0 < q)
  | .inf => true
  | .ninf => false
  | .nan => false

/-- Embeds `SimulationParams.cpi_paid`: `float('inf')` when CTR or CVR is zero,
else `cpm / (1000 * ctr * cvr)`. -/
def SimulationParams.cpi_paid (p : SimulationParams) : PyF :=
  if p.ctr = 0 ∨ p.cvr = 0 then .inf
  else .fin (p.cpm / (1000 * p.ctr * p.cvr))

/-- Embeds `SimulationParams.blended_cpi = cpi_paid * (1 - organic_ratio)`. -/
def SimulationParams.blended_cpi (p : SimulationParams) : PyF :=
  p.cpi_paid.mulFin (1 - p.organic_ratio)

/-- The ROAS assignment of `EnhancedMonteCarloSimulator.run` (line 414):
`ltv_total / blended_cpi if blended_cpi > 0 and blended_cpi != float('inf')
else 0`.  The division is only reached on a finite positive value. -/
def roasOf (b : PyF) (ltv_total : ℚ) : ℚ :=
  if b.gtZeroB ∧ b ≠ PyF.inf then
    match b with
    | .fin c => ltv_total / c
    | _ => 0
  else 0

/-- The renewal `while` loop of `_calculate_ltv` (deterministic branch
lines 250-267, stochastic branch lines 337-348; both are identical).
The loop runs while `next_day <= days and cycle <= 52`; the cycle cap of
52 bounds the recursion. -/
def renewalLoop (rlog rexp : ℚ → ℚ) (plan : SubscriptionPlan)
    (renewal_mult : ℚ) (days : ℤ) (expected_subscribers : ℚ)
    (cycle next_day : ℤ) (current_sub_retention : ℚ) :
    Option (List (ℤ × ℚ)) :=
  if next_day ≤ days ∧ cycle ≤ 52 then do
    let renewal ← plan.get_renewal_rate rlog rexp cycle
    let step_renewal_rate := renewal * renewal_mult
    let cur := current_sub_retention * step_renewal_rate
    let payment := expected_subscribers * cur * plan.price
    let rest ← renewalLoop rlog rexp plan renewal_mult days expected_subscribers
      (cycle + 1) (next_day + plan.duration_days) cur
    some ((next_day, payment) :: rest)
  else some []
termination_by (53 - cycle).toNat
decreasing_by
  rename_i h
  omega

/-- Payment events emitted by one plan in `_calculate_ltv` (lines
230-267): the first payment at `exploitation_day + trial_days` (0 trial
days without a trial), then the renewal chain unless the plan is a
lifetime plan (`duration_days >= 36500`). -/
def planEvents (rlog rexp : ℚ → ℚ) (exploitation_day : ℤ)
    (params : SimulationParams) (plan : SubscriptionPlan) (days : ℤ) :
    Option (List (ℤ × ℚ)) :=
  let effective_pay_rate := plan.pay_rate * params.pay_rate_mult
  let expected_subscribers :=
    if plan.has_trial then effective_pay_rate * plan.trial_to_paid_rate
    else effective_pay_rate
  let first_day := exploitation_day + (if plan.has_trial then plan.trial_days else 0)
  if first_day ≤ days then
    -- cycle 0 retention is 1.0; payment = expected * 1.0 * price
    let payment := expected_subscribers * 1 * plan.price
    if plan.duration_days < 36500 then do
      let rest ← renewalLoop rlog rexp plan params.renewal_mult days
        expected_subscribers 1 (first_day + plan.duration_days) 1
      some ((first_day, payment) :: rest)
    else
      some [(first_day, payment)]
  else some []

/-- All subscription payment events of `_calculate_ltv`, over the list of
plans the `for plan in cfg.subscription.get_all_plans()` loop iterates. -/
def iapEventsForPlans (rlog rexp : ℚ → ℚ) (exploitation_day : ℤ)
    (params : SimulationParams) (days : ℤ) :
    List SubscriptionPlan → Option (List (ℤ × ℚ))
  | [] => some []
  | plan :: rest => do
    let evs ← planEvents rlog rexp exploitation_day params plan days
    let more ← iapEventsForPlans rlog rexp exploitation_day params days rest
    some (evs ++ more)

/-- Embeds `ltv_iap` of `_calculate_ltv` (line 284 deterministic, lines 350-354
stochastic): the sum of every payment amount times the platform fee
multiplier `1 - platform_fee_rate`.  (The source also sorts the events by
day before the milestone accumulation; the total is order-independent.) -/
def iapLtv (rlog rexp : ℚ → ℚ) (exploitation_day : ℤ)
    (params : SimulationParams) (days : ℤ)
    (plans : List SubscriptionPlan) (platform_fee_rate : ℚ) : Option ℚ :=
  (iapEventsForPlans rlog rexp exploitation_day params days plans).map
    (fun evs => (evs.map Prod.snd).sum * (1 - platform_fee_rate))

/-- Embeds `config.py` `UAMetrics` (means only; the properties live on
`SimulationParams`). -/
structure UAMetrics where
  cpm : ℚ
  ctr : ℚ
  cvr : ℚ
  organic_ratio : ℚ

/-- Embeds `config.py` `AdsMetrics` (the fields the sampler reads). -/
structure AdsMetrics where
  ecpm_d0 : ℚ
  impressions_per_dau_d0 : ℚ
  ecpm_saturation_ratio : ℚ
  impressions_saturation_ratio : ℚ
  decay_half_life_days : ℤ

/-- Embeds `config.py` `SimulationConfig`: the seven variation coefficients. -/
structure SimulationConfig where
  cpm_variation : ℚ
  ctr_variation : ℚ
  cvr_variation : ℚ
  ecpm_variation : ℚ
  retention_variation : ℚ
  pay_rate_variation : ℚ
  sub_ret_variation : ℚ

/-- The slice of `config.py` `AppConfig` the parameter sampler reads. -/
structure AppConfig where
  ua : UAMetrics
  ads : AdsMetrics
  simulation : SimulationConfig

/-- The deterministic-mode test of `_sample_params` (lines 117-125) and
`_is_deterministic` (lines 169-180): all seven variation coefficients
below 0.001. -/
def isDeterministic (s : SimulationConfig) : Prop :=
  s.cpm_variation < 1/1000 ∧
  s.ctr_variation < 1/1000 ∧
  s.cvr_variation < 1/1000 ∧
  s.ecpm_variation < 1/1000 ∧
  s.retention_variation < 1/1000 ∧
  s.pay_rate_variation < 1/1000 ∧
  s.sub_ret_variation < 1/1000

instance (s : SimulationConfig) : Decidable (isDeterministic s) := by
  unfold isDeterministic; infer_instance

/-- The draws a stochastic run consumes.  Each list stands for the
successive values of `np.random.normal(mean, std)` proposed by one
rejection-sampling loop; `organic_noise` stands for the single draw
`np.random.normal(0, organic_variation)`. -/
structure Draws where
  cpm : List ℚ
  ctr : List ℚ
  cvr : List ℚ
  organic_noise : ℚ
  ecpm : List ℚ
  impressions : List ℚ
  retention : List ℚ
  pay_rate : List ℚ
  sub_ret : List ℚ

/-- The rejection loop of `sample_with_variation`: the first proposed
draw inside the acceptance band is returned; `none` models the loop
never terminating (no draw ever accepted). -/
def findAccepted (lo hi : ℚ) : List ℚ → Option ℚ
  | [] => none
  | v :: rest => if lo ≤ v ∧ v ≤ hi then some v else findAccepted lo hi rest

/-- Embeds `sample_with_variation` (lines 105-114): the mean exactly when the
field's own variation is (essentially) zero, otherwise rejection
sampling inside `[mean*min_ratio, mean*max_ratio]`. -/
def sample_with_variation (mean variation min_ratio max_ratio : ℚ)
    (draws : List ℚ) : Option ℚ :=
  if variation = 0 ∨ variation < 1/1000 then some mean
  else findAccepted (mean * min_ratio) (mean * max_ratio) draws

/-- The record returned by the deterministic branch of `_sample_params`
(lines 127-144): every field its configured mean, all multipliers 1.0. -/
def deterministicParams (cfg : AppConfig) : SimulationParams :=
  { cpm := cfg.ua.cpm
    ctr := cfg.ua.ctr
    cvr := cfg.ua.cvr
    organic_ratio := cfg.ua.organic_ratio
    ecpm_d0 := cfg.ads.ecpm_d0
    impressions_d0 := cfg.ads.impressions_per_dau_d0
    ecpm_saturation_ratio := cfg.ads.ecpm_saturation_ratio
    impressions_saturation_ratio := cfg.ads.impressions_saturation_ratio
    decay_half_life := cfg.ads.decay_half_life_days
    retention_mult := 1
    pay_rate_mult := 1
    renewal_mult := 1 }

/-- Embeds `_sample_params` (lines 100-167).  In stochastic mode the organic
ratio is the configured mean plus one additive noise draw, clamped to
[0.05, 0.8]; the noise magnitude `organic_variation` (capped at 3% and
scaled from the UA variations, line 148-149) is the standard deviation
of the draw modelled by `d.organic_noise`. -/
def sampleParams (cfg : AppConfig) (d : Draws) : Option SimulationParams :=
  if isDeterministic cfg.simulation then
    some (deterministicParams cfg)
  else
    (sample_with_variation cfg.ua.cpm cfg.simulation.cpm_variation (3/10) 2 d.cpm).bind fun cpm =>
    (sample_with_variation cfg.ua.ctr cfg.simulation.ctr_variation (3/10) 2 d.ctr).bind fun ctr =>
    (sample_with_variation cfg.ua.cvr cfg.simulation.cvr_variation (3/10) 2 d.cvr).bind fun cvr =>
    (sample_with_variation cfg.ads.ecpm_d0 cfg.simulation.ecpm_variation (3/10) 2 d.ecpm).bind fun ecpm =>
    (sample_with_variation cfg.ads.impressions_per_dau_d0 cfg.simulation.ecpm_variation
      (3/10) 2 d.impressions).bind fun impressions =>
    (sample_with_variation 1 cfg.simulation.retention_variation (6/10) (15/10) d.retention).bind
      fun retention_mult =>
    (sample_with_variation 1 cfg.simulation.pay_rate_variation (5/10) 2 d.pay_rate).bind
      fun pay_rate_mult =>
    -- renewal_mult capped tighter (0.97-1.03) against compounding over many cycles
    (sample_with_variation 1 cfg.simulation.sub_ret_variation (97/100) (103/100) d.sub_ret).bind
      fun renewal_mult =>
    some
      { cpm := cpm
        ctr := ctr
        cvr := cvr
        organic_ratio := min (8/10) (max (1/20) (cfg.ua.organic_ratio + d.organic_noise))
        ecpm_d0 := ecpm
        impressions_d0 := impressions
        ecpm_saturation_ratio := cfg.ads.ecpm_saturation_ratio
        impressions_saturation_ratio := cfg.ads.impressions_saturation_ratio
        decay_half_life := cfg.ads.decay_half_life_days
        retention_mult := retention_mult
        pay_rate_mult := pay_rate_mult
        renewal_mult := renewal_mult }

/-- Identity on ℚ, used to instantiate the `rlog`/`rexp` parameters in
closed statements whose evaluation never reaches the interpolation
branch. -/
def idQ : ℚ → ℚ := fun q => q

/-- The `RetentionMetrics` dataclass defaults of `config.py`. -/
def defaultRetention : RetentionMetrics :=
  { d0 := 1, d1 := 4/10, d3 := 3/10, d7 := 2/10, d14 := 15/100,
    d30 := 1/10, d60 := 7/100, d90 := 5/100, d180 := 3/100, d365 := 2/100 }

/-- The `SubscriptionRetentionCurve` dataclass defaults of `config.py`. -/
def defaultSubRetention : SubscriptionRetentionCurve :=
  { cycle_0 := 1, cycle_1 := 55/100, cycle_2 := 45/100, cycle_3 := 38/100,
    cycle_4 := 32/100, cycle_5 := 28/100, cycle_6 := 25/100, cycle_8 := 21/100,
    cycle_12 := 18/100, cycle_24 := 12/100, cycle_52 := 8/100 }

/-- The sub-retention curve of the end-to-end scenario: `cycle_1 = 50%`,
every other anchor at its dataclass default. -/
def scenarioCurve : SubscriptionRetentionCurve :=
  { defaultSubRetention with cycle_1 := 1/2 }

/-- The single weekly plan of the end-to-end scenario: price $2.99,
pay_rate 2%, no trial, duration 7 days. -/
def scenarioPlan : SubscriptionPlan :=
  { name := "weekly", price := 299/100, duration_days := 7, pay_rate := 1/50,
    has_trial := false, trial_days := 3, trial_to_paid_rate := 1/5,
    sub_retention := scenarioCurve }

/-- The end-to-end scenario configuration: CPM $5.0, CTR 2%, CVR 25%,
organic ratio 30%, ads defaults, all seven variation coefficients 0. -/
def scenarioConfig : AppConfig :=
  { ua := { cpm := 5, ctr := 1/50, cvr := 1/4, organic_ratio := 3/10 }
    ads := { ecpm_d0 := 12, impressions_per_dau_d0 := 6,
             ecpm_saturation_ratio := 1/2, impressions_saturation_ratio := 2/5,
             decay_half_life_days := 30 }
    simulation := { cpm_variation := 0, ctr_variation := 0, cvr_variation := 0,
                    ecpm_variation := 0, retention_variation := 0,
                    pay_rate_variation := 0, sub_ret_variation := 0 } }

/-- The deterministic parameter set the sampler produces for the
end-to-end scenario configuration. -/
def scenarioParams : SimulationParams := deterministicParams scenarioConfig

/-- The `lifetime` plan defaults of `config.py`: price $99.99, duration
36500 days, pay_rate 0.5%, no trial. -/
def lifetimePlan : SubscriptionPlan :=
  { name := "lifetime", price := 9999/100, duration_days := 36500,
    pay_rate := 1/200, has_trial := false, trial_days := 0,
    trial_to_paid_rate := 1, sub_retention := defaultSubRetention }

/-- A degenerate parameter set with CTR sampled to exactly zero. -/
def degenerateParams : SimulationParams :=
  { scenarioParams with ctr := 0 }

/-- A stochastic configuration: every variation coefficient 0.2. -/
def stochasticConfig : AppConfig :=
  { scenarioConfig with
    simulation := { cpm_variation := 1/5, ctr_variation := 1/5, cvr_variation := 1/5,
                    ecpm_variation := 1/5, retention_variation := 1/5,
                    pay_rate_variation := 1/5, sub_ret_variation := 1/5 } }

/-- Draws whose first proposal is already the configured mean of each
field (all accepted immediately), with zero organic noise. -/
def meanDraws : Draws :=
  { cpm := [5], ctr := [1/50], cvr := [1/4], organic_noise := 0,
    ecpm := [12], impressions := [6], retention := [1], pay_rate := [1],
    sub_ret := [1] }

theorem lookupKey_isSome_iff (k : ℤ) (l : List (ℤ × ℚ)) :
    (lookupKey k l).isSome ↔ k ∈ l.map Prod.fst := by
  induction l with
  | nil => simp [lookupKey]
  | cons hd tl ih =>
    obtain ⟨a, v⟩ := hd
    by_cases h : k = a <;> simp [lookupKey, h, ih]

theorem lookupKey_eq_none_iff (k : ℤ) (l : List (ℤ × ℚ)) :
    lookupKey k l = none ↔ k ∉ l.map Prod.fst := by
  rw [← lookupKey_isSome_iff]
  cases lookupKey k l <;> simp

theorem foldlMax_mem (xs : List ℤ) (x : ℤ) : xs.foldl max x ∈ x :: xs := by
  induction xs generalizing x with
  | nil => simp [List.foldl]
  | cons y ys ih =>
    simp only [List.foldl]
    have h := ih (max x y)
    rcases List.mem_cons.mp h with h1 | h1
    · rw [h1]
      rcases max_choice x y with hx | hx <;> rw [hx] <;> simp
    · simp [h1]

theorem foldlMin_mem (xs : List ℤ) (x : ℤ) : xs.foldl min x ∈ x :: xs := by
  induction xs generalizing x with
  | nil => simp [List.foldl]
  | cons y ys ih =>
    simp only [List.foldl]
    have h := ih (min x y)
    rcases List.mem_cons.mp h with h1 | h1
    · rw [h1]
      rcases min_choice x y with hx | hx <;> rw [hx] <;> simp
    · simp [h1]

theorem listMax?_isSome_of_ne_nil (l : List ℤ) (h : l ≠ []) : (listMax? l).isSome := by
  cases l with
  | nil => exact absurd rfl h
  | cons x xs => simp [listMax?]

theorem listMax?_mem (l : List ℤ) (m : ℤ) (h : listMax? l = some m) : m ∈ l := by
  cases l with
  | nil => simp [listMax?] at h
  | cons x xs =>
    simp only [listMax?, Option.some.injEq] at h
    rw [← h]
    exact foldlMax_mem xs x

theorem listMin?_isSome_of_ne_nil (l : List ℤ) (h : l ≠ []) : (listMin? l).isSome := by
  cases l with
  | nil => exact absurd rfl h
  | cons x xs => simp [listMin?]

theorem listMin?_mem (l : List ℤ) (m : ℤ) (h : listMin? l = some m) : m ∈ l := by
  cases l with
  | nil => simp [listMin?] at h
  | cons x xs =>
    simp only [listMin?, Option.some.injEq] at h
    rw [← h]
    exact foldlMin_mem xs x

/-- C7: every anchor stored in a retention curve or subscription-retention
curve is returned exactly by `get_retention_at_day` / `get_retention_at_cycle`,
with no interpolation applied, for arbitrary anchor values. -/
theorem anchor_lookup_identity (rlog rexp : ℚ → ℚ) (r : RetentionMetrics)
    (c : SubscriptionRetentionCurve) :
    (RetentionMetrics.get_retention_at_day rlog rexp r 0 = some r.d0 ∧
     RetentionMetrics.get_retention_at_day rlog rexp r 1 = some r.d1 ∧
     RetentionMetrics.get_retention_at_day rlog rexp r 3 = some r.d3 ∧
     RetentionMetrics.get_retention_at_day rlog rexp r 7 = some r.d7 ∧
     RetentionMetrics.get_retention_at_day rlog rexp r 14 = some r.d14 ∧
     RetentionMetrics.get_retention_at_day rlog rexp r 30 = some r.d30 ∧
     RetentionMetrics.get_retention_at_day rlog rexp r 60 = some r.d60 ∧
     RetentionMetrics.get_retention_at_day rlog rexp r 90 = some r.d90 ∧
     RetentionMetrics.get_retention_at_day rlog rexp r 180 = some r.d180 ∧
     RetentionMetrics.get_retention_at_day rlog rexp r 365 = some r.d365) ∧
    (SubscriptionRetentionCurve.get_retention_at_cycle rlog rexp c 0 = some c.cycle_0 ∧
     SubscriptionRetentionCurve.get_retention_at_cycle rlog rexp c 1 = some c.cycle_1 ∧
     SubscriptionRetentionCurve.get_retention_at_cycle rlog rexp c 2 = some c.cycle_2 ∧
     SubscriptionRetentionCurve.get_retention_at_cycle rlog rexp c 3 = some c.cycle_3 ∧
     SubscriptionRetentionCurve.get_retention_at_cycle rlog rexp c 4 = some c.cycle_4 ∧
     SubscriptionRetentionCurve.get_retention_at_cycle rlog rexp c 5 = some c.cycle_5 ∧
     SubscriptionRetentionCurve.get_retention_at_cycle rlog rexp c 6 = some c.cycle_6 ∧
     SubscriptionRetentionCurve.get_retention_at_cycle rlog rexp c 8 = some c.cycle_8 ∧
     SubscriptionRetentionCurve.get_retention_at_cycle rlog rexp c 12 = some c.cycle_12 ∧
     SubscriptionRetentionCurve.get_retention_at_cycle rlog rexp c 24 = some c.cycle_24 ∧
     SubscriptionRetentionCurve.get_retention_at_cycle rlog rexp c 52 = some c.cycle_52) :=
  ⟨⟨rfl, rfl, rfl, rfl, rfl, rfl, rfl, rfl, rfl, rfl⟩,
   ⟨rfl, rfl, rfl, rfl, rfl, rfl, rfl, rfl, rfl, rfl, rfl⟩⟩

/-- C8: strictly beyond the largest anchor, calendar retention holds flat
at the last anchor value while subscription retention decays geometrically
with ratio (last anchor) / (second-to-last anchor); the 0.9 default of the
source applies only to curves with fewer than two anchors, which the
eleven-anchor curve structure never produces. -/
theorem beyond_last_anchor (rlog rexp : ℚ → ℚ) (r : RetentionMetrics)
    (c : SubscriptionRetentionCurve) (day cycle : ℤ) :
    (365 < day → RetentionMetrics.get_retention_at_day rlog rexp r day = some r.d365) ∧
    (52 < cycle → c.cycle_24 ≠ 0 →
      SubscriptionRetentionCurve.get_retention_at_cycle rlog rexp c cycle =
        some (c.cycle_52 * (c.cycle_52 / c.cycle_24) ^ (cycle - 52).toNat)) := by
  constructor
  · intro h
    have hnone : lookupKey day (RetentionMetrics.get_curve r) = none := by
      rw [lookupKey_eq_none_iff]
      simp [RetentionMetrics.get_curve]
      omega
    simp only [RetentionMetrics.get_retention_at_day, hnone]
    simp [RetentionMetrics.get_curve, listMax?, lookupKey, h]
  · intro h hc
    have hnone : lookupKey cycle (SubscriptionRetentionCurve.get_curve c) = none := by
      rw [lookupKey_eq_none_iff]
      simp [SubscriptionRetentionCurve.get_curve]
      omega
    simp only [SubscriptionRetentionCurve.get_retention_at_cycle, hnone]
    rw [if_neg (by omega : ¬ cycle ≤ 0)]
    simp [SubscriptionRetentionCurve.get_curve, listMax?, lookupKey, pydiv, h, hc]

/-- Witness for C8 at day 400 and cycle 53 on the dataclass-default curves. -/
theorem beyond_last_anchor_witness :
    RetentionMetrics.get_retention_at_day idQ idQ defaultRetention 400 =
      some defaultRetention.d365 ∧
    SubscriptionRetentionCurve.get_retention_at_cycle idQ idQ defaultSubRetention 53 =
      some (defaultSubRetention.cycle_52 *
        (defaultSubRetention.cycle_52 / defaultSubRetention.cycle_24) ^ ((53:ℤ) - 52).toNat) :=
  ⟨(beyond_last_anchor idQ idQ defaultRetention defaultSubRetention 400 53).1 (by norm_num),
   (beyond_last_anchor idQ idQ defaultRetention defaultSubRetention 400 53).2 (by norm_num)
     (by norm_num [defaultSubRetention])⟩

/-- C6 counterexample: on the dataclass-default calendar curve, looking up
day -1 (below the smallest key 0) evaluates `max` over an empty sequence
of candidate anchors, which raises in the source (`none` here) instead of
clamping to a boundary value. -/
theorem negative_day_lookup_raises :
    RetentionMetrics.get_retention_at_day idQ idQ defaultRetention (-1) = none := by
  norm_num [RetentionMetrics.get_retention_at_day, RetentionMetrics.get_curve,
    listMax?, listMin?, lookupKey, defaultRetention]

/-- C6 amended: calendar retention lookup never raises for any day ≥ 0
(negative days do raise); subscription retention lookup never raises for
any integer cycle provided the second-to-last anchor is nonzero, returns
1.0 for every cycle < 0, and returns the stored `cycle_0` anchor at
cycle 0. -/
theorem retention_lookup_never_raises (rlog rexp : ℚ → ℚ) (r : RetentionMetrics)
    (c : SubscriptionRetentionCurve) (day cycle : ℤ)
    (hday : 0 ≤ day) (hc24 : c.cycle_24 ≠ 0) :
    (RetentionMetrics.get_retention_at_day rlog rexp r day).isSome ∧
    (SubscriptionRetentionCurve.get_retention_at_cycle rlog rexp c cycle).isSome ∧
    (cycle < 0 → SubscriptionRetentionCurve.get_retention_at_cycle rlog rexp c cycle = some 1) ∧
    SubscriptionRetentionCurve.get_retention_at_cycle rlog rexp c 0 = some c.cycle_0 := by
  refine ⟨?_, ?_, ?_, rfl⟩
  · cases hl : lookupKey day (RetentionMetrics.get_curve r) with
    | some v => simp [RetentionMetrics.get_retention_at_day, hl]
    | none =>
      have hkeys : day ∉ (RetentionMetrics.get_curve r).map Prod.fst :=
        (lookupKey_eq_none_iff _ _).mp hl
      simp only [RetentionMetrics.get_curve, List.map_cons, List.map_nil,
        List.mem_cons] at hkeys
      push_neg at hkeys
      by_cases hmax : day > 365
      · simp only [RetentionMetrics.get_retention_at_day, hl]
        simp [RetentionMetrics.get_curve, lookupKey, hmax,
          show listMax? [0, 1, 3, 7, 14, 30, 60, 90, 180, 365] = some 365 by simp [listMax?]]
      · have hmaxday : listMax? ((RetentionMetrics.get_curve r).map Prod.fst) = some 365 := by
          simp [RetentionMetrics.get_curve, listMax?]
        have hday0 : 0 < day := by omega
        have hdayN : day < 365 := by
          rcases hkeys with ⟨h0, h1, h3, h7, h14, h30, h60, h90, h180, h365, _⟩
          omega
        have hprevmem : (0:ℤ) ∈ (((RetentionMetrics.get_curve r).map Prod.fst).filter
            (fun d => d < day)) := by
          simp [RetentionMetrics.get_curve, hday0]
        have hnextmem : (365:ℤ) ∈ (((RetentionMetrics.get_curve r).map Prod.fst).filter
            (fun d => d > day)) := by
          simp [RetentionMetrics.get_curve, hdayN]
        obtain ⟨p, hp⟩ := Option.isSome_iff_exists.mp
          (listMax?_isSome_of_ne_nil _ (List.ne_nil_of_mem hprevmem))
        obtain ⟨n, hn⟩ := Option.isSome_iff_exists.mp
          (listMin?_isSome_of_ne_nil _ (List.ne_nil_of_mem hnextmem))
        have hpf := List.mem_filter.mp (listMax?_mem _ _ hp)
        have hnf := List.mem_filter.mp (listMin?_mem _ _ hn)
        have hplt : p < day := by simpa using hpf.2
        have hngt : day < n := by simpa using hnf.2
        obtain ⟨pv, hpv⟩ := Option.isSome_iff_exists.mp
          ((lookupKey_isSome_iff _ _).mpr hpf.1)
        obtain ⟨nv, hnv⟩ := Option.isSome_iff_exists.mp
          ((lookupKey_isSome_iff _ _).mpr hnf.1)
        have hdenom : ((n:ℚ) - (p:ℚ)) ≠ 0 := by
          have hpn : (p:ℚ) < (n:ℚ) := by exact_mod_cast lt_trans hplt hngt
          exact sub_ne_zero.mpr (ne_of_gt hpn)
        simp only [RetentionMetrics.get_retention_at_day, hl]
        simp [hmaxday, hmax, hp, hn, hpv, hnv, pydiv, hdenom]
  · cases hl : lookupKey cycle (SubscriptionRetentionCurve.get_curve c) with
    | some v => simp [SubscriptionRetentionCurve.get_retention_at_cycle, hl]
    | none =>
      have hkeys : cycle ∉ (SubscriptionRetentionCurve.get_curve c).map Prod.fst :=
        (lookupKey_eq_none_iff _ _).mp hl
      simp only [SubscriptionRetentionCurve.get_curve, List.map_cons, List.map_nil,
        List.mem_cons] at hkeys
      push_neg at hkeys
      by_cases hneg : cycle ≤ 0
      · simp [SubscriptionRetentionCurve.get_retention_at_cycle, hl, hneg]
      · by_cases hmax : cycle > 52
        · simp only [SubscriptionRetentionCurve.get_retention_at_cycle, hl]
          rw [if_neg hneg]
          simp [SubscriptionRetentionCurve.get_curve, lookupKey, hmax, pydiv, hc24,
            show listMax? [0, 1, 2, 3, 4, 5, 6, 8, 12, 24, 52] = some 52 by simp [listMax?]]
        · have hmaxc : listMax? ((SubscriptionRetentionCurve.get_curve c).map Prod.fst) =
              some 52 := by
            simp [SubscriptionRetentionCurve.get_curve, listMax?]
          have hcyc0 : 0 < cycle := by omega
          have hcycN : cycle < 52 := by
            rcases hkeys with ⟨k0, k1, k2, k3, k4, k5, k6, k8, k12, k24, k52, _⟩
            omega
          have hprevmem : (0:ℤ) ∈ (((SubscriptionRetentionCurve.get_curve c).map Prod.fst).filter
              (fun d => d < cycle)) := by
            simp [SubscriptionRetentionCurve.get_curve, hcyc0]
          have hnextmem : (52:ℤ) ∈ (((SubscriptionRetentionCurve.get_curve c).map Prod.fst).filter
              (fun d => d > cycle)) := by
            simp [SubscriptionRetentionCurve.get_curve, hcycN]
          obtain ⟨p, hp⟩ := Option.isSome_iff_exists.mp
            (listMax?_isSome_of_ne_nil _ (List.ne_nil_of_mem hprevmem))
          obtain ⟨n, hn⟩ := Option.isSome_iff_exists.mp
            (listMin?_isSome_of_ne_nil _ (List.ne_nil_of_mem hnextmem))
          have hpf := List.mem_filter.mp (listMax?_mem _ _ hp)
          have hnf := List.mem_filter.mp (listMin?_mem _ _ hn)
          have hplt : p < cycle := by simpa using hpf.2
          have hngt : cycle < n := by simpa using hnf.2
          obtain ⟨pv, hpv⟩ := Option.isSome_iff_exists.mp
            ((lookupKey_isSome_iff _ _).mpr hpf.1)
          obtain ⟨nv, hnv⟩ := Option.isSome_iff_exists.mp
            ((lookupKey_isSome_iff _ _).mpr hnf.1)
          have hdenom : ((n:ℚ) - (p:ℚ)) ≠ 0 := by
            have hpn : (p:ℚ) < (n:ℚ) := by exact_mod_cast lt_trans hplt hngt
            exact sub_ne_zero.mpr (ne_of_gt hpn)
          simp only [SubscriptionRetentionCurve.get_retention_at_cycle, hl]
          rw [if_neg hneg]
          simp [hmaxc, hmax, hp, hn, hpv, hnv, pydiv, hdenom]
  · intro hneg
    have hl : lookupKey cycle (SubscriptionRetentionCurve.get_curve c) = none := by
      rw [lookupKey_eq_none_iff]
      simp [SubscriptionRetentionCurve.get_curve]
      omega
    simp [SubscriptionRetentionCurve.get_retention_at_cycle, hl, le_of_lt hneg]

/-- Witness for the amended C6 at day 5 (interpolation branch) and cycle
-3 on the dataclass-default curves. -/
theorem retention_lookup_never_raises_witness :
    (RetentionMetrics.get_retention_at_day idQ idQ defaultRetention 5).isSome ∧
    (SubscriptionRetentionCurve.get_retention_at_cycle idQ idQ defaultSubRetention (-3)).isSome ∧
    SubscriptionRetentionCurve.get_retention_at_cycle idQ idQ defaultSubRetention (-3) = some 1 ∧
    SubscriptionRetentionCurve.get_retention_at_cycle idQ idQ defaultSubRetention 0 =
      some defaultSubRetention.cycle_0 := by
  have h := retention_lookup_never_raises idQ idQ defaultRetention defaultSubRetention 5 (-3)
    (by norm_num) (by norm_num [defaultSubRetention])
  exact ⟨h.1, h.2.1, h.2.2.1 (by norm_num), h.2.2.2⟩

/-- C1 counterexample: with the end-to-end scenario configuration the
renewal loop also bills on day 14, because its condition is
`next_day <= days` and day 14 lies within the 14-day horizon, so three
payment events arise (days 0, 7, 14) and the gross subscription LTV at
day 14 is 0.11661, not the claimed 0.0897. -/
theorem end_to_end_scenario_counterexample :
    iapEventsForPlans idQ idQ 0 scenarioParams 14 [scenarioPlan] =
      some [(0, 299/5000), (7, 299/10000), (14, 2691/100000)] ∧
    iapLtv idQ idQ 0 scenarioParams 14 [scenarioPlan] 0 = some (11661/100000) ∧
    (11661/100000 : ℚ) ≠ 897/10000 := by
  have hloop : renewalLoop idQ idQ scenarioPlan 1 14 (1/50) 1 7 1 =
      some [(7, 299/10000), (14, 2691/100000)] := by
    rw [renewalLoop.eq_def]
    norm_num [SubscriptionPlan.get_renewal_rate, SubscriptionRetentionCurve.get_retention_at_cycle,
      SubscriptionRetentionCurve.get_curve, lookupKey, listMax?, listMin?, pydiv, scenarioPlan,
      scenarioCurve, defaultSubRetention]
    rw [renewalLoop.eq_def]
    norm_num [SubscriptionPlan.get_renewal_rate, SubscriptionRetentionCurve.get_retention_at_cycle,
      SubscriptionRetentionCurve.get_curve, lookupKey, listMax?, listMin?, pydiv, scenarioPlan,
      scenarioCurve, defaultSubRetention]
    rw [renewalLoop.eq_def]
    norm_num [scenarioPlan]
  simp only [scenarioPlan] at hloop
  refine ⟨?_, ?_, by norm_num⟩ <;>
    norm_num [iapLtv, iapEventsForPlans, planEvents, scenarioPlan, scenarioParams,
      scenarioConfig, deterministicParams, hloop]

/-- C1 (amended): with the end-to-end scenario configuration (CPM $5.0,
CTR 2%, CVR 25%, organic ratio 30%, all variation coefficients 0, a
single weekly plan at $2.99 with pay rate 2%, no trial, sub-retention
cycle_1 = 50% and the remaining anchors at dataclass defaults, so
cycle_2 = 45%, exploitation start day 0, horizon 14 days), the sampler is
deterministic and the engine yields cpi_paid = $1.00, blended_cpi =
$0.70, and three payment events at days 0, 7 and 14 (0.0598, 0.0299,
0.02691), for a gross subscription LTV at day 14 of 0.11661, netting
0.081627 after the 30% platform fee. -/
theorem end_to_end_scenario (rlog rexp : ℚ → ℚ) (d : Draws) :
    sampleParams scenarioConfig d = some scenarioParams ∧
    scenarioParams.cpi_paid = PyF.fin 1 ∧
    scenarioParams.blended_cpi = PyF.fin (7/10) ∧
    iapEventsForPlans rlog rexp 0 scenarioParams 14 [scenarioPlan] =
      some [(0, 299/5000), (7, 299/10000), (14, 2691/100000)] ∧
    iapLtv rlog rexp 0 scenarioParams 14 [scenarioPlan] 0 = some (11661/100000) ∧
    iapLtv rlog rexp 0 scenarioParams 14 [scenarioPlan] (3/10) = some (81627/1000000) := by
  have hloop : renewalLoop rlog rexp scenarioPlan 1 14 (1/50) 1 7 1 =
      some [(7, 299/10000), (14, 2691/100000)] := by
    rw [renewalLoop.eq_def]
    norm_num [SubscriptionPlan.get_renewal_rate, SubscriptionRetentionCurve.get_retention_at_cycle,
      SubscriptionRetentionCurve.get_curve, lookupKey, listMax?, listMin?, pydiv, scenarioPlan,
      scenarioCurve, defaultSubRetention]
    rw [renewalLoop.eq_def]
    norm_num [SubscriptionPlan.get_renewal_rate, SubscriptionRetentionCurve.get_retention_at_cycle,
      SubscriptionRetentionCurve.get_curve, lookupKey, listMax?, listMin?, pydiv, scenarioPlan,
      scenarioCurve, defaultSubRetention]
    rw [renewalLoop.eq_def]
    norm_num [scenarioPlan]
  simp only [scenarioPlan] at hloop
  refine ⟨?_, ?_, ?_, ?_, ?_, ?_⟩
  · norm_num [sampleParams, isDeterministic, scenarioConfig, scenarioParams]
  · norm_num [SimulationParams.cpi_paid, scenarioParams, scenarioConfig, deterministicParams]
  · norm_num [SimulationParams.blended_cpi, SimulationParams.cpi_paid, PyF.mulFin,
      scenarioParams, scenarioConfig, deterministicParams]
  all_goals
    norm_num [iapLtv, iapEventsForPlans, planEvents, scenarioPlan, scenarioParams,
      scenarioConfig, deterministicParams, hloop]

/-- C2: for every scenario, the recorded ROAS equals ltv_total /
blended_cpi whenever the blended CPI is finite and positive, equals 0
whenever the blended CPI is infinite, and (when the organic ratio is not
exactly 1, which the sampler guarantees) the blended CPI is infinite
exactly when CTR or CVR is zero.  `roasOf` is total: the degenerate
scenario still produces a result. -/
theorem roas_cpi_consistency (p : SimulationParams) (ltv_total : ℚ) :
    (∀ q : ℚ, p.blended_cpi = PyF.fin q → 0 < q →
      roasOf p.blended_cpi ltv_total = ltv_total / q) ∧
    ((p.blended_cpi = PyF.inf ∨ p.blended_cpi = PyF.ninf) →
      roasOf p.blended_cpi ltv_total = 0) ∧
    (p.organic_ratio ≠ 1 →
      ((p.blended_cpi = PyF.inf ∨ p.blended_cpi = PyF.ninf) ↔ (p.ctr = 0 ∨ p.cvr = 0))) := by
  refine ⟨?_, ?_, ?_⟩
  · intro q hq hpos
    rw [hq]
    simp [roasOf, PyF.gtZeroB, hpos]
  · intro h
    rcases h with h | h <;> rw [h] <;> simp [roasOf, PyF.gtZeroB]
  · intro horg
    by_cases hc : p.ctr = 0 ∨ p.cvr = 0
    · have hcpi : p.cpi_paid = PyF.inf := by simp [SimulationParams.cpi_paid, hc]
      have horg1 : (1 : ℚ) - p.organic_ratio ≠ 0 := sub_ne_zero.mpr (Ne.symm horg)
      constructor
      · intro _
        exact hc
      · intro _
        simp only [SimulationParams.blended_cpi, hcpi, PyF.mulFin]
        rcases lt_trichotomy 0 (1 - p.organic_ratio) with h1 | h1 | h1
        · left
          rw [if_pos h1]
        · exact absurd h1.symm horg1
        · right
          rw [if_neg (not_lt.mpr (le_of_lt h1)), if_pos h1]
    · have hq : p.cpi_paid = PyF.fin (p.cpm / (1000 * p.ctr * p.cvr)) := by
        simp [SimulationParams.cpi_paid, hc]
      simp [SimulationParams.blended_cpi, hq, PyF.mulFin, hc]

/-- Witness for C2: the scenario parameters give a finite positive CPI of
0.70 and ROAS = ltv / 0.70; the degenerate parameters (CTR = 0) give an
infinite CPI and ROAS = 0. -/
theorem roas_cpi_consistency_witness :
    roasOf scenarioParams.blended_cpi (21/10) = (21/10) / (7/10) ∧
    roasOf degenerateParams.blended_cpi 7 = 0 ∧
    (degenerateParams.blended_cpi = PyF.inf ∨ degenerateParams.blended_cpi = PyF.ninf) := by
  have hfin := (roas_cpi_consistency scenarioParams (21/10)).1 (7/10)
    (by norm_num [SimulationParams.blended_cpi, SimulationParams.cpi_paid, PyF.mulFin,
      scenarioParams, scenarioConfig, deterministicParams])
    (by norm_num)
  have h := roas_cpi_consistency degenerateParams 7
  have hinf : degenerateParams.blended_cpi = PyF.inf ∨ degenerateParams.blended_cpi = PyF.ninf :=
    (h.2.2 (by norm_num [degenerateParams, scenarioParams, deterministicParams,
      scenarioConfig])).mpr
      (Or.inl (by norm_num [degenerateParams, scenarioParams, deterministicParams,
        scenarioConfig]))
  exact ⟨hfin, h.2.1 hinf, hinf⟩

/-- C3: the sampler is deterministic exactly when all seven configured
variation coefficients are below 0.001, and then every field of the
returned `SimulationParams` is its configured mean with all three
multipliers exactly 1.0, for any random draws. -/
theorem deterministic_mode (cfg : AppConfig) (d : Draws) :
    (isDeterministic cfg.simulation ↔
      (cfg.simulation.cpm_variation < 1/1000 ∧ cfg.simulation.ctr_variation < 1/1000 ∧
       cfg.simulation.cvr_variation < 1/1000 ∧ cfg.simulation.ecpm_variation < 1/1000 ∧
       cfg.simulation.retention_variation < 1/1000 ∧
       cfg.simulation.pay_rate_variation < 1/1000 ∧
       cfg.simulation.sub_ret_variation < 1/1000)) ∧
    (isDeterministic cfg.simulation →
      sampleParams cfg d = some
        { cpm := cfg.ua.cpm, ctr := cfg.ua.ctr, cvr := cfg.ua.cvr,
          organic_ratio := cfg.ua.organic_ratio, ecpm_d0 := cfg.ads.ecpm_d0,
          impressions_d0 := cfg.ads.impressions_per_dau_d0,
          ecpm_saturation_ratio := cfg.ads.ecpm_saturation_ratio,
          impressions_saturation_ratio := cfg.ads.impressions_saturation_ratio,
          decay_half_life := cfg.ads.decay_half_life_days,
          retention_mult := 1, pay_rate_mult := 1, renewal_mult := 1 }) := by
  refine ⟨Iff.rfl, fun h => ?_⟩
  simp only [sampleParams, if_pos h, deterministicParams]

/-- Witness for C3 on the all-zero-variation scenario configuration. -/
theorem deterministic_mode_witness :
    sampleParams scenarioConfig meanDraws = some scenarioParams := by
  have h := (deterministic_mode scenarioConfig meanDraws).2
    (by norm_num [isDeterministic, scenarioConfig])
  simpa [scenarioParams, deterministicParams, scenarioConfig] using h

/-- C4: a plan with lifetime duration (≥ 36500 days) whose first payment
day lies within the horizon produces exactly one payment event and never
enters the renewal loop, whatever the horizon. -/
theorem lifetime_plan_single_event (rlog rexp : ℚ → ℚ) (exploitation_day : ℤ)
    (params : SimulationParams) (plan : SubscriptionPlan) (days : ℤ)
    (hlife : 36500 ≤ plan.duration_days)
    (hin : exploitation_day + (if plan.has_trial then plan.trial_days else 0) ≤ days) :
    planEvents rlog rexp exploitation_day params plan days =
      some [(exploitation_day + (if plan.has_trial then plan.trial_days else 0),
        (if plan.has_trial
          then plan.pay_rate * params.pay_rate_mult * plan.trial_to_paid_rate
          else plan.pay_rate * params.pay_rate_mult) * 1 * plan.price)] := by
  simp only [planEvents]
  rw [if_pos hin, if_neg (not_lt.mpr hlife)]

/-- Witness for C4: the default lifetime plan over a 3650-day horizon
yields the single event (day 0, 0.005 × 99.99). -/
theorem lifetime_plan_single_event_witness :
    planEvents idQ idQ 0 scenarioParams lifetimePlan 3650 = some [(0, 9999/20000)] := by
  have h := lifetime_plan_single_event idQ idQ 0 scenarioParams lifetimePlan 3650
    (by norm_num [lifetimePlan]) (by norm_num [lifetimePlan])
  norm_num [lifetimePlan, scenarioParams, deterministicParams, scenarioConfig] at h
  exact h

/-- C5: for any fixed parameter set and horizon, the net subscription LTV
at platform fee `f` is exactly `(1 - f)` times the gross LTV at fee 0,
and equals the sum over payment events of each amount scaled by the fee
multiplier (the fee applies uniformly to every event). -/
theorem platform_fee_scaling (rlog rexp : ℚ → ℚ) (exploitation_day : ℤ)
    (params : SimulationParams) (days : ℤ) (plans : List SubscriptionPlan) (f : ℚ) :
    iapLtv rlog rexp exploitation_day params days plans f =
      (iapLtv rlog rexp exploitation_day params days plans 0).map (fun g => (1 - f) * g) ∧
    iapLtv rlog rexp exploitation_day params days plans f =
      (iapEventsForPlans rlog rexp exploitation_day params days plans).map
        (fun evs => (evs.map (fun e => e.2 * (1 - f))).sum) := by
  cases h : iapEventsForPlans rlog rexp exploitation_day params days plans with
  | none => simp [iapLtv, h]
  | some evs =>
    constructor
    · simp only [iapLtv, h, Option.map_some']
      congr 1
      ring
    · simp only [iapLtv, h, Option.map_some', Option.some.injEq]
      exact (List.sum_map_mul_right evs Prod.snd (1 - f)).symm

theorem findAccepted_bounds (lo hi : ℚ) (l : List ℚ) (v : ℚ)
    (h : findAccepted lo hi l = some v) : lo ≤ v ∧ v ≤ hi := by
  induction l with
  | nil => simp [findAccepted] at h
  | cons x xs ih =>
    by_cases hx : lo ≤ x ∧ x ≤ hi
    · rw [findAccepted, if_pos hx] at h
      cases h
      exact hx
    · rw [findAccepted, if_neg hx] at h
      exact ih h

theorem sample_with_variation_bounds (mean variation lo hi : ℚ) (draws : List ℚ) (v : ℚ)
    (hm : 0 ≤ mean) (hlo : lo ≤ 1) (hhi : 1 ≤ hi)
    (h : sample_with_variation mean variation lo hi draws = some v) :
    mean * lo ≤ v ∧ v ≤ mean * hi := by
  rw [sample_with_variation] at h
  by_cases hc : variation = 0 ∨ variation < 1/1000
  · rw [if_pos hc] at h
    cases h
    constructor
    · calc mean * lo ≤ mean * 1 := mul_le_mul_of_nonneg_left hlo hm
        _ = mean := mul_one mean
    · calc mean = mean * 1 := (mul_one mean).symm
        _ ≤ mean * hi := mul_le_mul_of_nonneg_left hhi hm
  · rw [if_neg hc] at h
    exact findAccepted_bounds _ _ _ _ h

/-- C9: in stochastic mode, with non-negative configured means, every
parameter the sampler returns lies in its multiplicative band around the
configured mean ([0.3x, 2x] for CPM/CTR/CVR/eCPM/impressions,
[0.6, 1.5] for the retention multiplier, [0.5, 2] for the pay-rate
multiplier, [0.97, 1.03] for the renewal multiplier) and the organic
ratio lies in [0.05, 0.8]. -/
theorem stochastic_sampling_bounds (cfg : AppConfig) (d : Draws) (p : SimulationParams)
    (hdet : ¬ isDeterministic cfg.simulation)
    (hcpm : 0 ≤ cfg.ua.cpm) (hctr : 0 ≤ cfg.ua.ctr) (hcvr : 0 ≤ cfg.ua.cvr)
    (hecpm : 0 ≤ cfg.ads.ecpm_d0) (himp : 0 ≤ cfg.ads.impressions_per_dau_d0)
    (h : sampleParams cfg d = some p) :
    (cfg.ua.cpm * (3/10) ≤ p.cpm ∧ p.cpm ≤ cfg.ua.cpm * 2) ∧
    (cfg.ua.ctr * (3/10) ≤ p.ctr ∧ p.ctr ≤ cfg.ua.ctr * 2) ∧
    (cfg.ua.cvr * (3/10) ≤ p.cvr ∧ p.cvr ≤ cfg.ua.cvr * 2) ∧
    (cfg.ads.ecpm_d0 * (3/10) ≤ p.ecpm_d0 ∧ p.ecpm_d0 ≤ cfg.ads.ecpm_d0 * 2) ∧
    (cfg.ads.impressions_per_dau_d0 * (3/10) ≤ p.impressions_d0 ∧
      p.impressions_d0 ≤ cfg.ads.impressions_per_dau_d0 * 2) ∧
    (6/10 ≤ p.retention_mult ∧ p.retention_mult ≤ 15/10) ∧
    (5/10 ≤ p.pay_rate_mult ∧ p.pay_rate_mult ≤ 2) ∧
    (97/100 ≤ p.renewal_mult ∧ p.renewal_mult ≤ 103/100) ∧
    (1/20 ≤ p.organic_ratio ∧ p.organic_ratio ≤ 8/10) := by
  rw [sampleParams, if_neg hdet] at h
  simp only [Option.bind_eq_some, Option.some.injEq] at h
  obtain ⟨cpmv, hcpmv, ctrv, hctrv, cvrv, hcvrv, ecpmv, hecpmv, impv, himpv,
    retv, hretv, payv, hpayv, renv, hrenv, hp⟩ := h
  subst hp
  refine ⟨sample_with_variation_bounds _ _ _ _ _ _ hcpm (by norm_num) (by norm_num) hcpmv,
    sample_with_variation_bounds _ _ _ _ _ _ hctr (by norm_num) (by norm_num) hctrv,
    sample_with_variation_bounds _ _ _ _ _ _ hcvr (by norm_num) (by norm_num) hcvrv,
    sample_with_variation_bounds _ _ _ _ _ _ hecpm (by norm_num) (by norm_num) hecpmv,
    sample_with_variation_bounds _ _ _ _ _ _ himp (by norm_num) (by norm_num) himpv,
    ?_, ?_, ?_, ?_, ?_⟩
  · have hb := sample_with_variation_bounds _ _ _ _ _ _
      (by norm_num : (0:ℚ) ≤ 1) (by norm_num) (by norm_num) hretv
    simpa using hb
  · have hb := sample_with_variation_bounds _ _ _ _ _ _
      (by norm_num : (0:ℚ) ≤ 1) (by norm_num) (by norm_num) hpayv
    simpa using hb
  · have hb := sample_with_variation_bounds _ _ _ _ _ _
      (by norm_num : (0:ℚ) ≤ 1) (by norm_num) (by norm_num) hrenv
    simpa using hb
  · exact le_min (by norm_num) (le_max_left _ _)
  · exact min_le_left _ _

/-- Witness for C9: the all-0.2-variation configuration with draws that
propose each mean, whose sampled parameter set satisfies all bands. -/
theorem stochastic_sampling_bounds_witness :
    sampleParams stochasticConfig meanDraws = some scenarioParams ∧
    ((stochasticConfig.ua.cpm * (3/10) ≤ scenarioParams.cpm ∧
        scenarioParams.cpm ≤ stochasticConfig.ua.cpm * 2) ∧
     (stochasticConfig.ua.ctr * (3/10) ≤ scenarioParams.ctr ∧
        scenarioParams.ctr ≤ stochasticConfig.ua.ctr * 2) ∧
     (stochasticConfig.ua.cvr * (3/10) ≤ scenarioParams.cvr ∧
        scenarioParams.cvr ≤ stochasticConfig.ua.cvr * 2) ∧
     (stochasticConfig.ads.ecpm_d0 * (3/10) ≤ scenarioParams.ecpm_d0 ∧
        scenarioParams.ecpm_d0 ≤ stochasticConfig.ads.ecpm_d0 * 2) ∧
     (stochasticConfig.ads.impressions_per_dau_d0 * (3/10) ≤ scenarioParams.impressions_d0 ∧
        scenarioParams.impressions_d0 ≤ stochasticConfig.ads.impressions_per_dau_d0 * 2) ∧
     (6/10 ≤ scenarioParams.retention_mult ∧ scenarioParams.retention_mult ≤ 15/10) ∧
     (5/10 ≤ scenarioParams.pay_rate_mult ∧ scenarioParams.pay_rate_mult ≤ 2) ∧
     (97/100 ≤ scenarioParams.renewal_mult ∧ scenarioParams.renewal_mult ≤ 103/100) ∧
     (1/20 ≤ scenarioParams.organic_ratio ∧ scenarioParams.organic_ratio ≤ 8/10)) := by
  have heval : sampleParams stochasticConfig meanDraws = some scenarioParams := by
    rw [sampleParams, if_neg (by norm_num [isDeterministic, stochasticConfig, scenarioConfig])]
    norm_num [stochasticConfig, scenarioConfig, meanDraws, sample_with_variation, findAccepted,
      scenarioParams, deterministicParams]
  refine ⟨heval, stochastic_sampling_bounds stochasticConfig meanDraws scenarioParams
    (by norm_num [isDeterministic, stochasticConfig, scenarioConfig])
    (by norm_num [stochasticConfig, scenarioConfig])
    (by norm_num [stochasticConfig, scenarioConfig])
    (by norm_num [stochasticConfig, scenarioConfig])
    (by norm_num [stochasticConfig, scenarioConfig])
    (by norm_num [stochasticConfig, scenarioConfig])
    heval⟩

/-- C10: a field whose own variation coefficient is below 0.001 is
returned as exactly its configured mean for any draws — per-field
determinism inside an otherwise stochastic run. -/
theorem per_field_determinism (mean variation lo hi : ℚ) (draws : List ℚ)
    (h : variation < 1/1000) :
    sample_with_variation mean variation lo hi draws = some mean := by
  rw [sample_with_variation, if_pos (Or.inr h)]

/-- Witness for C10: a zero-variation field with a wild draw available
still returns its mean. -/
theorem per_field_determinism_witness :
    sample_with_variation 5 0 (3/10) 2 [99] = some 5 :=
  per_field_determinism 5 0 (3/10) 2 [99] (by norm_num)
